import Mathlib

/-!
Verification development for the scan-orchestration pipeline of the
ADVRECONHOUND repository.  Each definition below is a shallow embedding of a
function of the TypeScript source (`server/routes.ts`, `server/storage.ts`,
`server/services/reconnaissance.ts`, `server/services/openai.ts`,
`server/services/mitre-attack.ts`); asynchronous effects are made explicit by
passing the outcome of every external interaction (network probe, inference
provider, registry capability) as a parameter, and storage is modelled as the
pure in-memory state the `IStorage` collaborator presents.
-/

namespace ReconHound

/-! ## Character-level embedding of the two validation regexes

`ReconnaissanceService.validateTarget` tests its argument against
`domainRegex` and `ipRegex`.  Both patterns are anchored alternations of
dot-separated atoms that cannot themselves contain a dot, so a match of the
whole string is equivalent to: split on the dot and match every piece against
the atom pattern.  The atom predicates below transcribe the atom patterns
character by character. -/

/-- Splits a character list on a separator character; mirrors the way an
anchored regex of dot-separated atoms decomposes its subject (the resulting
pieces never contain the separator). -/
def splitOnChar (sep : Char) : List Char → List (List Char)
  | [] => [[]]
  | c :: rest =>
    let r := splitOnChar sep rest
    if c = sep then [] :: r
    else
      match r with
      | [] => [[c]]
      | h :: t => (c :: h) :: t

/-- One DNS label of `domainRegex`:
`[a-zA-Z0-9]([a-zA-Z0-9-]{0,61}[a-zA-Z0-9])?` — a single alphanumeric
character, or an alphanumeric head and tail with up to 61 alphanumeric-or-dash
characters between them. -/
def labelOK : List Char → Bool
  | [] => false
  | [c] => c.isAlphanum
  | c :: rest =>
    c.isAlphanum &&
      (match rest.getLast? with
       | none => false
       | some lc =>
         lc.isAlphanum &&
           rest.dropLast.all (fun x => x.isAlphanum || x = '-') &&
           rest.dropLast.length ≤ 61)

/-- The whole `domainRegex`: one or more dot-separated labels. -/
def domainMatch (l : List Char) : Bool :=
  (splitOnChar '.' l).all labelOK

/-- One octet atom of `ipRegex`:
`25[0-5]|2[0-4][0-9]|[01]?[0-9][0-9]?`. -/
def ipOctet : List Char → Bool
  | [a] => a.isDigit
  | [a, b] => a.isDigit && b.isDigit
  | [a, b, c] =>
    (a = '2' && b = '5' && ('0' ≤ c && c ≤ '5')) ||
    (a = '2' && ('0' ≤ b && b ≤ '4') && c.isDigit) ||
    ((a = '0' || a = '1') && b.isDigit && c.isDigit)
  | _ => false

/-- The whole `ipRegex`: exactly four dot-separated octet atoms. -/
def ipMatch (l : List Char) : Bool :=
  match splitOnChar '.' l with
  | [a, b, c, d] => ipOctet a && ipOctet b && ipOctet c && ipOctet d
  | _ => false

/-- `ReconnaissanceService.validateTarget`: the target passes iff it matches
`domainRegex` or `ipRegex`. -/
def validateTarget (s : String) : Bool :=
  domainMatch s.data || ipMatch s.data

/-! ## Data model (`shared/schema.ts`, `server/storage.ts`) -/

/-- Lifecycle status of a `scans` row. -/
inductive ScanStatus
  | pending
  | running
  | completed
  | failed
deriving DecidableEq, Repr

/-- A technology identification as produced by `detectTechnologies`. -/
structure TechFind where
  name : String
  version : Option String
  category : String
deriving DecidableEq, Repr

/-- The `ReconResults` aggregate assembled by `performReconnaissance`.
`whoisData` is doubly optional: the outer layer is absence (the field was
never written because the probe promise rejected), the inner layer is the
explicit `null` that `getWhoisData` resolves with on registry failure. -/
structure ReconResults where
  target : String
  subdomains : List String
  openPorts : List Nat
  technologies : List TechFind
  dnsRecords : List (String × String)
  whoisData : Option (Option (List (String × String)))
  headers : List (String × String)
  statusCode : Option Nat
  certificates : Option String
deriving DecidableEq, Repr

/-- A `scans` row.  Timestamps carry no information the claims need beyond
presence, so `completedAt` records only whether a completion instant was
stamped. -/
structure ScanRow where
  id : Nat
  target : String
  scanType : String
  status : ScanStatus
  progress : Nat
  riskScore : Option Int
  results : Option ReconResults
  completedAt : Bool
deriving DecidableEq, Repr

/-- A `Partial<Scan>` argument of `storage.updateScan`: a field is written
exactly when its component is `some` (`completedAt` is a flag because the
code only ever sets it to the current instant). -/
structure ScanUpdate where
  status : Option ScanStatus := none
  progress : Option Nat := none
  riskScore : Option Int := none
  results : Option ReconResults := none
  completedAt : Bool := false
deriving DecidableEq, Repr

/-- `storage.updateScan` applied to one row: merge the partial update. -/
def applyUpdate (s : ScanRow) (u : ScanUpdate) : ScanRow :=
  { s with
    status := u.status.getD s.status
    progress := u.progress.getD s.progress
    riskScore := match u.riskScore with | some r => some r | none => s.riskScore
    results := match u.results with | some r => some r | none => s.results
    completedAt := s.completedAt || u.completedAt }

/-- A `vulnerabilities` row. -/
structure VulnRow where
  id : Nat
  scanId : Nat
  severity : String
  type : String
  description : String
  cvss : Option String
  remediation : Option String
deriving DecidableEq, Repr

/-- A `subdomains` row as created by `performScan` (status is always
`"active"`, ip and technologies always null there). -/
structure SubdomainRow where
  scanId : Nat
  subdomain : String
  status : String
deriving DecidableEq, Repr

/-- A `technologies` row as created by `performScan`. -/
structure TechnologyRow where
  scanId : Nat
  name : String
  version : Option String
  category : String
  confidence : Option Nat
deriving DecidableEq, Repr

/-- A `vulnerability_mitre_mapping` row. -/
structure MappingRow where
  vulnerabilityId : Nat
  techniqueId : String
  confidence : Nat
  reasoning : String
deriving DecidableEq, Repr

/-! ## Scan submission boundary (`app.post("/api/scans")`)

`scanRequestSchema` is `z.object` with `target: z.string().min(1)` and
`scanType: z.string().min(1)`; on success `storage.createScan` inserts a row
with status `pending` and progress `0` which is returned to the caller before
the background scan starts. -/

/-- The zod parse of the request body: both strings must have length ≥ 1. -/
def scanRequestOK (target scanType : String) : Bool :=
  1 ≤ target.length && 1 ≤ scanType.length

/-- `storage.createScan`: the row inserted for an accepted request. -/
def createScan (id : Nat) (target scanType : String) : ScanRow :=
  { id := id
    target := target
    scanType := scanType
    status := .pending
    progress := 0
    riskScore := none
    results := none
    completedAt := false }

/-- The synchronous part of the `POST /api/scans` handler: validate the body,
create and return the scan row (appending it to the scan table), or reject
with a 400 error and leave the table untouched. -/
def postScans (target scanType : String) (table : List ScanRow) :
    Except String (ScanRow × List ScanRow) :=
  if scanRequestOK target scanType then
    let scan := createScan (table.length + 1) target scanType
    .ok (scan, table ++ [scan])
  else
    .error "Invalid scan data"

/-! ## String helpers shared by the probe embeddings -/

/-- `startsWithL pat l` is true iff `pat` is an initial segment of `l`. -/
def startsWithL : List Char → List Char → Bool
  | [], _ => true
  | _ :: _, [] => false
  | p :: ps, c :: cs => p = c && startsWithL ps cs

/-- `subListIn pat hay`: `pat` occurs contiguously somewhere in `hay`
(the semantics of the JavaScript `String.prototype.includes`). -/
def subListIn (pat : List Char) : List Char → Bool
  | [] => pat.isEmpty
  | c :: rest => startsWithL pat (c :: rest) || subListIn pat rest

/-- JavaScript `hay.includes(pat)` on our string embedding. -/
def strIncludes (hay pat : String) : Bool :=
  subListIn pat.data hay.data

/-- ASCII lower-casing of one character, the effect of
`String.prototype.toLowerCase` on the ASCII header/type values the source
matches against. -/
def lowerChar (c : Char) : Char := c.toLower

/-- `String.prototype.toLowerCase` on the embedding. -/
def lowerStr (s : String) : String := ⟨s.data.map lowerChar⟩

/-! ## Registry-lookup probe (`getWhoisData` / `parseWhoisData`) -/

/-- JavaScript object assignment on a string-keyed object viewed as an
insertion-ordered association list: overwrite in place if the key exists,
append otherwise. -/
def upsert : List (String × String) → String → String → List (String × String)
  | [], k, v => [(k, v)]
  | (k', v') :: rest, k, v =>
    if k' = k then (k, v) :: rest else (k', v') :: upsert rest k v

/-- JavaScript `String.prototype.trim`: drop whitespace from both ends. -/
def trimChars (l : List Char) : List Char :=
  ((l.dropWhile Char.isWhitespace).reverse.dropWhile Char.isWhitespace).reverse

/-- `Array.prototype.join(':')` on the split pieces. -/
def joinColon : List (List Char) → List Char
  | [] => []
  | [x] => x
  | x :: xs => x ++ ':' :: joinColon xs

/-- One iteration of the `lines.forEach` body of `parseWhoisData`:
`const [key, ...valueParts] = line.split(':')`; the line contributes iff the
key is a non-empty (truthy) string, a colon was present, and the re-joined,
trimmed value is non-empty; the key is stored trimmed and lower-cased, the
value keeps its case. -/
def whoisStep (data : List (String × String)) (line : List Char) :
    List (String × String) :=
  match splitOnChar ':' line with
  | [] => data
  | key :: valueParts =>
    if key ≠ [] ∧ valueParts.length > 0 then
      let value := trimChars (joinColon valueParts)
      if value ≠ [] then
        upsert data (String.mk ((trimChars key).map lowerChar)) (String.mk value)
      else data
    else data

/-- `parseWhoisData`: fold the line step over the output split on newlines. -/
def parseWhoisData (out : String) : List (String × String) :=
  (splitOnChar '\n' out.data).foldl whoisStep []

/-- `getWhoisData`: the registry capability's outcome is `some out` when the
external `whois` invocation produced output and `none` when it failed; in the
failure case the function catches the error and resolves with `null`
(embedded as `none` in the inner layer). -/
def getWhoisData (external : Option String) :
    Option (List (String × String)) :=
  match external with
  | some out => some (parseWhoisData out)
  | none => none

/-! ## Web-fingerprint technology detection (`detectTechnologies`) -/

/-- The headers the detector inspects (`server`, `x-powered-by`,
`x-generator`); a header is `none` when absent from the response. -/
structure HeaderBag where
  server : Option String
  xPoweredBy : Option String
  xGenerator : Option String
deriving DecidableEq, Repr

/-- JavaScript `\s` on the ASCII values at hand. -/
def isWs (c : Char) : Bool := c.isWhitespace

/-- The version-extracting regex idiom `value.match(/pat\/([^\s]+)/)?.[1]`:
find the first position where `pat ++ "/"` is followed by at least one
non-whitespace character and return the maximal non-whitespace run after it. -/
def extractAfter (pat : List Char) : List Char → Option String
  | [] => none
  | c :: rest =>
    if startsWithL pat (c :: rest) then
      let run := ((c :: rest).drop pat.length).takeWhile (fun x => !isWs x)
      if run.isEmpty then extractAfter pat rest else some (String.mk run)
    else extractAfter pat rest

/-- The server-banner branch of `detectTechnologies`: a truthy `server`
header is lower-cased and matched by an if/else-if chain, so at most one
web-server identification is produced. -/
def detectServer (server : Option String) : List TechFind :=
  match server with
  | none => []
  | some sv =>
    if sv = "" then []
    else
      let s := (lowerStr sv).data
      if subListIn "apache".data s then
        [⟨"Apache", extractAfter "apache/".data s, "web_server"⟩]
      else if subListIn "nginx".data s then
        [⟨"Nginx", extractAfter "nginx/".data s, "web_server"⟩]
      else if subListIn "iis".data s then
        [⟨"IIS", extractAfter "iis/".data s, "web_server"⟩]
      else []

/-- The `x-powered-by` branch: at most one framework identification. -/
def detectFramework (poweredBy : Option String) : List TechFind :=
  match poweredBy with
  | none => []
  | some pv =>
    if pv = "" then []
    else
      let s := (lowerStr pv).data
      if subListIn "php".data s then
        [⟨"PHP", extractAfter "php/".data s, "framework"⟩]
      else if subListIn "asp.net".data s then
        [⟨"ASP.NET", none, "framework"⟩]
      else []

/-- The `x-generator` branch: at most one CMS identification. -/
def detectCms (generator : Option String) : List TechFind :=
  match generator with
  | none => []
  | some gv =>
    if gv = "" then []
    else
      let s := (lowerStr gv).data
      if subListIn "wordpress".data s then
        [⟨"WordPress", none, "cms"⟩]
      else if subListIn "drupal".data s then
        [⟨"Drupal", none, "cms"⟩]
      else []

/-- `detectTechnologies`: the three header branches push into one array in
source order. -/
def detectTechnologies (h : HeaderBag) : List TechFind :=
  detectServer h.server ++ detectFramework h.xPoweredBy ++ detectCms h.xGenerator

/-! ## Fan-out coordinator (`performReconnaissance`)

The five probe promises are passed to `Promise.allSettled`; each parameter
below is the settle outcome of one probe (`some v` = fulfilled with `v`,
`none` = rejected).  `allSettled` itself never rejects, so after the guard the
function always resolves with the aggregate. -/

/-- The fulfillment value of `getWebInfo` (the HTTP-only fallback branch
resolves without a `certificates` field, hence the option there). -/
structure WebInfo where
  headers : List (String × String)
  statusCode : Nat
  technologies : List TechFind
  certificates : Option String
deriving DecidableEq, Repr

/-- The settle outcome of each member of the probe set. -/
structure ProbeOutcomes where
  subdomains : Option (List String)
  openPorts : Option (List Nat)
  dnsRecords : Option (List (String × String))
  webInfo : Option WebInfo
  whois : Option (Option (List (String × String)))
deriving DecidableEq, Repr

/-- The aggregate `performReconnaissance` assembles: the `results` record is
initialised with empty defaults and each field is overwritten exactly when
the corresponding probe settled fulfilled. -/
def assembleAggregate (target : String) (o : ProbeOutcomes) : ReconResults :=
  { target := target
    subdomains := o.subdomains.getD []
    openPorts := o.openPorts.getD []
    dnsRecords := o.dnsRecords.getD []
    technologies := match o.webInfo with | some w => w.technologies | none => []
    headers := match o.webInfo with | some w => w.headers | none => []
    statusCode := o.webInfo.map (·.statusCode)
    certificates := match o.webInfo with | some w => w.certificates | none => none
    whoisData := o.whois }

/-- `performReconnaissance`: reject invalid targets synchronously, otherwise
assemble the aggregate (a probe failure never rejects the whole call, since
`Promise.allSettled` itself never rejects). -/
def performReconnaissance (target : String) (o : ProbeOutcomes) :
    Except String ReconResults :=
  if validateTarget target then
    .ok (assembleAggregate target o)
  else
    .error "Invalid target format"

/-! ## Inference capability call sites (`services/openai.ts`,
`services/mitre-attack.ts`) -/

/-- One vulnerability record of the structured vulnerability-analysis
result. -/
structure VulnReport where
  severity : String
  type : String
  description : String
  cvss : String
  remediation : String
deriving DecidableEq, Repr

/-- The structured result `analyzeVulnerabilities` expects from the
provider. -/
structure VulnAnalysis where
  riskScore : ℚ
  riskLevel : String
  summary : String
  recommendations : List String
  vulnerabilities : List VulnReport
deriving DecidableEq, Repr

/-- `analyzeVulnerabilities`: a provider failure or unparseable content
lands in the catch block, which rethrows with a fixed message — there is no
fallback at this call site. -/
def analyzeVulnerabilities (provider : Option VulnAnalysis) :
    Except String VulnAnalysis :=
  match provider with
  | some a => .ok a
  | none => .error "Failed to analyze vulnerabilities with AI"

/-- One technique mapping of a `MitreAnalysisResult`. -/
structure MitreMapping where
  techniqueId : String
  confidence : Nat
  reasoning : String
deriving DecidableEq, Repr

/-- The risk-assessment triple of a `MitreAnalysisResult`. -/
structure RiskAssessment where
  likelihood : ℚ
  impact : ℚ
  overall : ℚ
deriving DecidableEq, Repr

/-- `MitreAnalysisResult`. -/
structure MitreResult where
  vulnerabilityId : Nat
  mappings : List MitreMapping
  attackPath : List String
  riskAssessment : RiskAssessment
deriving DecidableEq, Repr

/-- The provider's structured answer for the technique-mapping call (the
service adds the vulnerability id itself). -/
structure MitreRaw where
  mappings : List MitreMapping
  attackPath : List String
  riskAssessment : RiskAssessment
deriving DecidableEq, Repr

/-- `MitreAttackService.getSeverityScore`: the severity→score table, applied
to the lower-cased severity tag. -/
def getSeverityScore (severity : String) : ℚ :=
  if lowerStr severity = "critical" then 95
  else if lowerStr severity = "high" then 80
  else if lowerStr severity = "medium" then 60
  else if lowerStr severity = "low" then 30
  else 50

/-- `MitreAttackService.getFallbackMapping`: the deterministic keyword rules
over the lower-cased vulnerability type, in source order, each matching rule
pushing its mapping and its technique id onto the attack path; the risk
assessment comes from the severity table with the 0.8 and 0.9 multipliers. -/
def getFallbackMapping (v : VulnRow) : MitreResult :=
  let t := lowerStr v.type
  let rule1 :=
    if strIncludes t "sql injection" || strIncludes t "xss" || strIncludes t "rce" then
      [(⟨"T1190", 85,
        "Web application vulnerability allowing exploitation of public-facing application"⟩ :
        MitreMapping)]
    else []
  let rule2 :=
    if strIncludes t "privilege escalation" then
      [(⟨"T1068", 80, "Vulnerability allows privilege escalation"⟩ : MitreMapping)]
    else []
  let rule3 :=
    if strIncludes t "service" || strIncludes t "port" then
      [(⟨"T1021", 70, "Remote service vulnerability"⟩ : MitreMapping)]
    else []
  let mappings := rule1 ++ rule2 ++ rule3
  let score := getSeverityScore v.severity
  { vulnerabilityId := v.id
    mappings := mappings
    attackPath := mappings.map (·.techniqueId)
    riskAssessment :=
      { likelihood := score * (8 / 10 : ℚ)
        impact := score
        overall := score * (9 / 10 : ℚ) } }

/-- `MitreAttackService.analyzeVulnerabilityForMitre`: use the provider's
structured answer when the call succeeds and parses, otherwise fall back to
the local deterministic mapping — this call site never throws. -/
def analyzeVulnerabilityForMitre (provider : Option MitreRaw) (v : VulnRow) :
    MitreResult :=
  match provider with
  | some r =>
    { vulnerabilityId := v.id
      mappings := r.mappings
      attackPath := r.attackPath
      riskAssessment := r.riskAssessment }
  | none => getFallbackMapping v

/-! ## Progress broadcaster (`clients` map and `broadcastUpdate`) -/

/-- The `readyState` of one WebSocket observer channel. -/
inductive ChannelState
  | connecting
  | opened
  | closing
  | closed
deriving DecidableEq, Repr

/-- `broadcastUpdate`: serialize once, then iterate the registry and send to
every channel whose `readyState` is OPEN.  The function returns the
(id, message) deliveries it performed and the registry it leaves behind —
which is the registry it was given: skipped channels are not removed here
(removal happens only in each connection's own close handler). -/
def broadcastUpdate (clients : List (String × ChannelState)) (message : String) :
    List (String × String) × List (String × ChannelState) :=
  (clients.filterMap fun c =>
    if c.2 = ChannelState.opened then some (c.1, message) else none,
   clients)

/-! ## Stage sequencer (`performScan` in `server/routes.ts`) -/

/-- One message pushed through `broadcast(scanId, {...})`: status, optional
progress, optional human-readable message, optional risk score. -/
structure ProgressEvent where
  status : ScanStatus
  progress : Option Nat := none
  message : Option String := none
  riskScore : Option ℚ := none
deriving DecidableEq, Repr

/-- JavaScript `Math.round` (round half toward positive infinity). -/
def jsRound (q : ℚ) : Int := ⌊q + 1 / 2⌋

/-- The outcomes of every external interaction one run of `performScan`
performs: the five probe settlements, the vulnerability-inference provider
call, and the technique-mapping provider call for the i-th stored
vulnerability. -/
structure ScanEnv where
  probes : ProbeOutcomes
  ai : Option VulnAnalysis
  mitre : Nat → Option MitreRaw

/-- Everything one run of `performScan` did: the final state of the scan row,
the `broadcast` calls in order, the `storage.updateScan` calls in order, and
the rows created through the storage collaborator. -/
structure ScanRun where
  finalScan : ScanRow
  events : List ProgressEvent
  updates : List ScanUpdate
  storedSubdomains : List SubdomainRow
  storedTechnologies : List TechnologyRow
  storedVulns : List VulnRow
  storedMappings : List MappingRow

/-- The `vulnerabilities` row `performScan` creates from the i-th reported
vulnerability (`storage.createVulnerability` maps an empty-string `cvss` or
`remediation` to null via `|| null`). -/
def mkVulnRow (scanId : Nat) (i : Nat) (r : VulnReport) : VulnRow :=
  { id := i + 1
    scanId := scanId
    severity := r.severity
    type := r.type
    description := r.description
    cvss := if r.cvss = "" then none else some r.cvss
    remediation := if r.remediation = "" then none else some r.remediation }

/-- The partial update `performScan` issues in its catch block: status
`failed` and a completion timestamp — and nothing else, in particular no
progress field. -/
def failUpdate : ScanUpdate :=
  { status := some .failed, completedAt := true }

/-- The failed event the catch block broadcasts: no progress field, message
prefixed with `"Scan failed: "`. -/
def failEvent (msg : String) : ProgressEvent :=
  { status := .failed, message := some ("Scan failed: " ++ msg) }

/-- `performScan`: the staged sequencer, with each `await` on an external
interaction replaced by the corresponding component of the environment.
Stage order, progress values, persistence and broadcast calls mirror the
source statement for statement. -/
def performScan (scan0 : ScanRow) (env : ScanEnv) : ScanRun :=
  let startU : ScanUpdate := { status := some .running, progress := some 0 }
  let ev0 : ProgressEvent := { status := .running, progress := some 0 }
  let ev25 : ProgressEvent :=
    { status := .running, progress := some 25, message := some "Starting reconnaissance..." }
  match performReconnaissance scan0.target env.probes with
  | .error msg =>
    { finalScan := applyUpdate (applyUpdate scan0 startU) failUpdate
      events := [ev0, ev25, failEvent msg]
      updates := [startU, failUpdate]
      storedSubdomains := []
      storedTechnologies := []
      storedVulns := []
      storedMappings := [] }
  | .ok recon =>
    let ev50 : ProgressEvent :=
      { status := .running, progress := some 50, message := some "Analyzing subdomains..." }
    let subRows := recon.subdomains.map fun sd =>
      ({ scanId := scan0.id, subdomain := sd, status := "active" } : SubdomainRow)
    let ev65 : ProgressEvent :=
      { status := .running, progress := some 65, message := some "Identifying technologies..." }
    let techRows := recon.technologies.map fun t =>
      ({ scanId := scan0.id, name := t.name, version := t.version,
         category := t.category, confidence := some 85 } : TechnologyRow)
    let ev80 : ProgressEvent :=
      { status := .running, progress := some 80,
        message := some "Analyzing vulnerabilities with AI..." }
    match analyzeVulnerabilities env.ai with
    | .error msg =>
      { finalScan := applyUpdate (applyUpdate scan0 startU) failUpdate
        events := [ev0, ev25, ev50, ev65, ev80, failEvent msg]
        updates := [startU, failUpdate]
        storedSubdomains := subRows
        storedTechnologies := techRows
        storedVulns := []
        storedMappings := [] }
    | .ok analysis =>
      let vulnRows := analysis.vulnerabilities.enum.map fun p =>
        mkVulnRow scan0.id p.1 p.2
      let ev90 : ProgressEvent :=
        { status := .running, progress := some 90,
          message := some "Mapping to MITRE ATT&CK framework..." }
      let mapRows := (vulnRows.enum.map fun p =>
        (analyzeVulnerabilityForMitre (env.mitre p.1) p.2).mappings.map fun m =>
          ({ vulnerabilityId := p.2.id, techniqueId := m.techniqueId,
             confidence := m.confidence, reasoning := m.reasoning } : MappingRow)).flatten
      let finU : ScanUpdate :=
        { status := some .completed
          progress := some 100
          riskScore := some (jsRound analysis.riskScore)
          results := some recon
          completedAt := true }
      let ev100 : ProgressEvent :=
        { status := .completed, progress := some 100,
          message := some "Scan completed successfully",
          riskScore := some analysis.riskScore }
      { finalScan := applyUpdate (applyUpdate scan0 startU) finU
        events := [ev0, ev25, ev50, ev65, ev80, ev90, ev100]
        updates := [startU, finU]
        storedSubdomains := subRows
        storedTechnologies := techRows
        storedVulns := vulnRows
        storedMappings := mapRows }

/-! ## Supporting lemmas -/

/-- A string has zod length ≥ 1 exactly when it is not the empty string. -/
lemma one_le_length_iff (s : String) : 1 ≤ s.length ↔ s ≠ "" := by
  cases s with
  | mk data =>
    cases data with
    | nil => simp [String.length]
    | cons c cs =>
      simp only [String.length]
      constructor
      · intro _ h
        exact (List.cons_ne_nil c cs) (congrArg String.data h)
      · intro _
        simp [List.length_cons]

/-! ## Claim theorems -/

/-- C1 (counterexample): the target string "256.1.1.1" passes
`validateTarget` (its all-digit labels match the hostname alternative of the
grammar), and the submission boundary accepts it and synchronously creates
and returns a ScanRecord — the claim's required rejection does not happen. -/
theorem C1_boundary_counterexample :
    validateTarget "256.1.1.1" = true ∧
    postScans "256.1.1.1" "network" [] =
      .ok (createScan 1 "256.1.1.1" "network", [createScan 1 "256.1.1.1" "network"]) ∧
    (createScan 1 "256.1.1.1" "network").status = ScanStatus.pending := by
  refine ⟨by decide, ?_, rfl⟩
  have h : scanRequestOK "256.1.1.1" "network" = true := by decide
  simp [postScans, h]

/-- C1 (amended): the submission boundary checks only that target and
scanType are non-empty; every request with both non-empty is accepted and a
ScanRecord with status pending and progress 0 is created and returned
synchronously (the hostname/IPv4 grammar is applied only later, inside
the asynchronous reconnaissance stage), while a request with an empty target
or scanType is rejected synchronously with no ScanRecord created. -/
theorem C1_boundary_nonempty_only (t ty : String) (table : List ScanRow) :
    (t ≠ "" → ty ≠ "" →
      postScans t ty table =
        .ok (createScan (table.length + 1) t ty,
             table ++ [createScan (table.length + 1) t ty]) ∧
      (createScan (table.length + 1) t ty).status = ScanStatus.pending ∧
      (createScan (table.length + 1) t ty).progress = 0) ∧
    ((t = "" ∨ ty = "") → postScans t ty table = .error "Invalid scan data") := by
  constructor
  · intro ht hty
    have h1 : 1 ≤ t.length := (one_le_length_iff t).mpr ht
    have h2 : 1 ≤ ty.length := (one_le_length_iff ty).mpr hty
    have hok : scanRequestOK t ty = true := by
      simp [scanRequestOK, h1, h2]
    exact ⟨by simp [postScans, hok], rfl, rfl⟩
  · intro hbad
    have hok : scanRequestOK t ty = false := by
      rcases hbad with h | h
      · have h1 : ¬ 1 ≤ t.length := fun hc => (one_le_length_iff t).mp hc h
        simp [scanRequestOK, h1]
      · have h1 : ¬ 1 ≤ ty.length := fun hc => (one_le_length_iff ty).mp hc h
        simp [scanRequestOK, h1]
    simp [postScans, hok]

/-- C1 (witness): the amended boundary behaviour at the concrete input
"256.1.1.1" — accepted, scan record created. -/
theorem C1_boundary_witness :
    postScans "256.1.1.1" "network" [] =
      .ok (createScan 1 "256.1.1.1" "network", [createScan 1 "256.1.1.1" "network"]) ∧
    (createScan 1 "256.1.1.1" "network").status = ScanStatus.pending ∧
    (createScan 1 "256.1.1.1" "network").progress = 0 :=
  (C1_boundary_nonempty_only "256.1.1.1" "network" []).1 (by decide) (by decide)

/-- C2: for a validated target and any combination of probe settlements,
`performReconnaissance` resolves (it never fails because a probe failed) and
every aggregate field carries the corresponding probe's success value when
that probe fulfilled and its empty/absent default when it rejected. -/
theorem C2_fanout_settles_all (target : String) (o : ProbeOutcomes)
    (hv : validateTarget target = true) :
    ∃ r, performReconnaissance target o = .ok r ∧
      r.target = target ∧
      (∀ v, o.subdomains = some v → r.subdomains = v) ∧
      (o.subdomains = none → r.subdomains = []) ∧
      (∀ v, o.openPorts = some v → r.openPorts = v) ∧
      (o.openPorts = none → r.openPorts = []) ∧
      (∀ v, o.dnsRecords = some v → r.dnsRecords = v) ∧
      (o.dnsRecords = none → r.dnsRecords = []) ∧
      (∀ w, o.webInfo = some w →
        r.headers = w.headers ∧ r.statusCode = some w.statusCode ∧
        r.technologies = w.technologies ∧ r.certificates = w.certificates) ∧
      (o.webInfo = none →
        r.headers = [] ∧ r.statusCode = none ∧
        r.technologies = [] ∧ r.certificates = none) ∧
      (∀ v, o.whois = some v → r.whoisData = some v) ∧
      (o.whois = none → r.whoisData = none) := by
  refine ⟨assembleAggregate target o, by simp [performReconnaissance, hv], ?_⟩
  refine ⟨rfl, ?_, ?_, ?_, ?_, ?_, ?_, ?_, ?_, ?_, ?_⟩ <;>
    first
      | (intro v h; simp [assembleAggregate, h])
      | (intro h; simp [assembleAggregate, h])

/-- C2 (witness): a concrete settlement combination — subdomain sweep and
web fingerprint succeed, the port sweep, DNS collection and registry lookup
fail — for the validated target "example.com". -/
theorem C2_fanout_witness :
    ∃ r, performReconnaissance "example.com"
        { subdomains := some ["www.example.com"]
          openPorts := none
          dnsRecords := none
          webInfo := some { headers := [("server", "nginx")], statusCode := 200,
                            technologies := [⟨"Nginx", none, "web_server"⟩],
                            certificates := none }
          whois := none } = .ok r ∧
      r.target = "example.com" ∧
      (∀ v, (some ["www.example.com"] : Option (List String)) = some v → r.subdomains = v) ∧
      ((some ["www.example.com"] : Option (List String)) = none → r.subdomains = []) ∧
      (∀ v, (none : Option (List Nat)) = some v → r.openPorts = v) ∧
      ((none : Option (List Nat)) = none → r.openPorts = []) ∧
      (∀ v, (none : Option (List (String × String))) = some v → r.dnsRecords = v) ∧
      ((none : Option (List (String × String))) = none → r.dnsRecords = []) ∧
      (∀ w, (some { headers := [("server", "nginx")], statusCode := 200,
                    technologies := [⟨"Nginx", none, "web_server"⟩],
                    certificates := none } : Option WebInfo) = some w →
        r.headers = w.headers ∧ r.statusCode = some w.statusCode ∧
        r.technologies = w.technologies ∧ r.certificates = w.certificates) ∧
      ((some { headers := [("server", "nginx")], statusCode := 200,
               technologies := [⟨"Nginx", none, "web_server"⟩],
               certificates := none } : Option WebInfo) = none →
        r.headers = [] ∧ r.statusCode = none ∧
        r.technologies = [] ∧ r.certificates = none) ∧
      (∀ v, (none : Option (Option (List (String × String)))) = some v → r.whoisData = some v) ∧
      ((none : Option (Option (List (String × String)))) = none → r.whoisData = none) :=
  C2_fanout_settles_all "example.com" _ (by decide)

/-- C6: the local fallback mapper lower-cases the vulnerability's type and
applies the fixed rules in order — sql injection/xss/rce ↦ T1190 at 85,
privilege escalation ↦ T1068 at 80, service/port ↦ T1021 at 70 — emitting
every matching rule's mapping and appending its technique id to the attack
path in rule order; the risk assessment comes from the severity table
(critical 95, high 80, medium 60, low 30, default 50) with
likelihood = 0.8·score, impact = score, overall = 0.9·score.  The last
conjuncts pin the severity table itself and the spec's worked example
("SQL Injection in Login Form"). -/
theorem C6_fallback_rules (v : VulnRow) :
    ((getFallbackMapping v).mappings.map fun m => (m.techniqueId, m.confidence)) =
      (let t := lowerStr v.type
       (if strIncludes t "sql injection" || strIncludes t "xss" || strIncludes t "rce"
        then [("T1190", 85)] else []) ++
       (if strIncludes t "privilege escalation" then [("T1068", 80)] else []) ++
       (if strIncludes t "service" || strIncludes t "port" then [("T1021", 70)] else [])) ∧
    (getFallbackMapping v).attackPath =
      (getFallbackMapping v).mappings.map (·.techniqueId) ∧
    (getFallbackMapping v).riskAssessment.likelihood =
      (8 / 10 : ℚ) * getSeverityScore v.severity ∧
    (getFallbackMapping v).riskAssessment.impact = getSeverityScore v.severity ∧
    (getFallbackMapping v).riskAssessment.overall =
      (9 / 10 : ℚ) * getSeverityScore v.severity ∧
    getSeverityScore "critical" = 95 ∧
    getSeverityScore "HIGH" = 80 ∧
    getSeverityScore "medium" = 60 ∧
    getSeverityScore "low" = 30 ∧
    getSeverityScore "unknown tag" = 50 ∧
    (getFallbackMapping
        { id := 7, scanId := 1, severity := "high",
          type := "SQL Injection in Login Form", description := "d",
          cvss := none, remediation := none }).attackPath = ["T1190"] := by
  refine ⟨?_, ?_, ?_, rfl, ?_, by decide, by decide, by decide, by decide, by decide, by decide⟩
  · simp only [getFallbackMapping]
    split_ifs <;> simp
  · simp only [getFallbackMapping]
  · simp only [getFallbackMapping]
    exact mul_comm _ _
  · simp only [getFallbackMapping]
    exact mul_comm _ _

/-- C9: with the provider failing, the technique mapper is a deterministic
function of the vulnerability's type and severity alone — two vulnerabilities
agreeing on those fields receive identical fallback mapping sets, attack
paths and risk assessments. -/
theorem C9_fallback_deterministic (v1 v2 : VulnRow)
    (ht : v1.type = v2.type) (hs : v1.severity = v2.severity) :
    (analyzeVulnerabilityForMitre none v1).mappings =
      (analyzeVulnerabilityForMitre none v2).mappings ∧
    (analyzeVulnerabilityForMitre none v1).attackPath =
      (analyzeVulnerabilityForMitre none v2).attackPath ∧
    (analyzeVulnerabilityForMitre none v1).riskAssessment =
      (analyzeVulnerabilityForMitre none v2).riskAssessment := by
  simp [analyzeVulnerabilityForMitre, getFallbackMapping, ht, hs]

/-- C9 (witness): two concrete vulnerabilities sharing type and severity but
differing in id, description, cvss and remediation get identical fallback
output. -/
theorem C9_fallback_witness :
    (analyzeVulnerabilityForMitre none
        { id := 1, scanId := 1, severity := "high", type := "Open Port Exposure",
          description := "first run", cvss := none, remediation := none }).mappings =
      (analyzeVulnerabilityForMitre none
        { id := 2, scanId := 9, severity := "high", type := "Open Port Exposure",
          description := "second run", cvss := some "7.5", remediation := some "r" }).mappings ∧
    (analyzeVulnerabilityForMitre none
        { id := 1, scanId := 1, severity := "high", type := "Open Port Exposure",
          description := "first run", cvss := none, remediation := none }).attackPath =
      (analyzeVulnerabilityForMitre none
        { id := 2, scanId := 9, severity := "high", type := "Open Port Exposure",
          description := "second run", cvss := some "7.5", remediation := some "r" }).attackPath ∧
    (analyzeVulnerabilityForMitre none
        { id := 1, scanId := 1, severity := "high", type := "Open Port Exposure",
          description := "first run", cvss := none, remediation := none }).riskAssessment =
      (analyzeVulnerabilityForMitre none
        { id := 2, scanId := 9, severity := "high", type := "Open Port Exposure",
          description := "second run", cvss := some "7.5", remediation := some "r" }).riskAssessment :=
  C9_fallback_deterministic _ _ rfl rfl

/-- C7 (counterexample): with a registry holding one open and one closed
channel, `publish` delivers to the open channel only, but the closed channel
is NOT unregistered — it is still in the registry `publish` leaves behind,
refuting the claim's "silently skips and unregisters". -/
theorem C7_publish_counterexample :
    (broadcastUpdate [("a", ChannelState.opened), ("b", ChannelState.closed)] "m").1 =
      [("a", "m")] ∧
    (broadcastUpdate [("a", ChannelState.opened), ("b", ChannelState.closed)] "m").2 =
      [("a", ChannelState.opened), ("b", ChannelState.closed)] ∧
    ("b", ChannelState.closed) ∈
      (broadcastUpdate [("a", ChannelState.opened), ("b", ChannelState.closed)] "m").2 := by
  refine ⟨by decide, rfl, by decide⟩

/-- C7 (amended): `publish` pushes the serialized event to every registered
observer whose channel is open, delivers nothing to (but also never fails on)
any non-open channel, and leaves the registry exactly as it found it — closed
channels are skipped but unregistered only by their own close handler, never
by `publish`. -/
theorem C7_publish_amended (clients : List (String × ChannelState)) (message : String) :
    (broadcastUpdate clients message).2 = clients ∧
    (∀ id, (id, ChannelState.opened) ∈ clients →
      (id, message) ∈ (broadcastUpdate clients message).1) ∧
    (∀ p, p ∈ (broadcastUpdate clients message).1 →
      p.2 = message ∧ (p.1, ChannelState.opened) ∈ clients) := by
  refine ⟨rfl, ?_, ?_⟩
  · intro id hmem
    simp only [broadcastUpdate, List.mem_filterMap]
    exact ⟨(id, ChannelState.opened), hmem, by simp⟩
  · intro p hp
    simp only [broadcastUpdate, List.mem_filterMap] at hp
    obtain ⟨c, hc, heq⟩ := hp
    by_cases hopen : c.2 = ChannelState.opened
    · rw [if_pos hopen] at heq
      injection heq with h
      subst h
      refine ⟨rfl, ?_⟩
      have hceq : (c.1, ChannelState.opened) = c := by
        rw [← hopen]
      exact hceq ▸ hc
    · rw [if_neg hopen] at heq
      exact absurd heq (by simp)

/-- C7 (witness): the amended behaviour at a concrete registry — the open
channel "a" receives the serialized message while the registry is returned
unchanged. -/
theorem C7_publish_witness :
    ("a", "hello") ∈
      (broadcastUpdate [("a", ChannelState.opened), ("b", ChannelState.closed)] "hello").1 ∧
    (broadcastUpdate [("a", ChannelState.opened), ("b", ChannelState.closed)] "hello").2 =
      [("a", ChannelState.opened), ("b", ChannelState.closed)] :=
  ⟨(C7_publish_amended [("a", ChannelState.opened), ("b", ChannelState.closed)] "hello").2.1
      "a" (by decide),
   (C7_publish_amended [("a", ChannelState.opened), ("b", ChannelState.closed)] "hello").1⟩

/-- Insertion preserves a pointwise property of the association list. -/
lemma upsert_all {P : String × String → Bool} (data : List (String × String))
    (k v : String) (hdata : data.all P = true) (hkv : P (k, v) = true) :
    (upsert data k v).all P = true := by
  induction data with
  | nil => simpa [upsert]
  | cons hd tl ih =>
    simp only [List.all_cons, Bool.and_eq_true] at hdata
    by_cases hk : hd.1 = k
    · simp [upsert, hk, hkv, hdata.2]
    · cases hd with
      | mk k' v' =>
        simp only at hk
        simp [upsert, hk, hdata.1, ih hdata.2]

/-- Every value `whoisStep` ever stores is non-empty, so the parse result
never holds an empty value. -/
lemma whoisStep_all (data : List (String × String)) (line : List Char)
    (hdata : data.all (fun kv => !(kv.2 == "")) = true) :
    (whoisStep data line).all (fun kv => !(kv.2 == "")) = true := by
  unfold whoisStep
  cases hsplit : splitOnChar ':' line with
  | nil => exact hdata
  | cons key valueParts =>
    dsimp only
    by_cases hkey : key ≠ [] ∧ valueParts.length > 0
    · rw [if_pos hkey]
      by_cases hval : trimChars (joinColon valueParts) ≠ []
      · rw [if_pos hval]
        refine upsert_all data _ _ hdata ?_
        simpa [String.ext_iff] using hval
      · rw [if_neg hval]
        exact hdata
    · rw [if_neg hkey]
      exact hdata

/-- Folding the line step over any line list keeps every stored value
non-empty. -/
lemma whoisFold_all (lines : List (List Char)) (data : List (String × String))
    (hdata : data.all (fun kv => !(kv.2 == "")) = true) :
    (lines.foldl whoisStep data).all (fun kv => !(kv.2 == "")) = true := by
  induction lines generalizing data with
  | nil => exact hdata
  | cons hd tl ih => exact ih _ (whoisStep_all data hd hdata)

/-- C8 (counterexample): when the external registry capability fails, the
probe resolves with the JavaScript `null` (embedded `none`) — not with an
empty map — refuting the claim's "the probe's result is an empty map". -/
theorem C8_whois_counterexample :
    getWhoisData none = none ∧
    getWhoisData none ≠ some ([] : List (String × String)) := by
  exact ⟨rfl, by simp [getWhoisData]⟩

/-- C8 (amended): the parser splits each line on the FIRST colon, trims and
lower-cases the key and trims the value, dropping every line that has no
colon, an empty key, or an empty trimmed value (values keep their case); no
stored value is ever empty; and on failure of the external capability the
probe resolves with null — embedded as `none`, distinct from the empty map —
rather than failing the pipeline.  The concrete lines exercise each rule:
a plain pair, a value containing a further colon, a colon-free line, an
empty value and an empty key. -/
theorem C8_whois_amended :
    getWhoisData none = none ∧
    (∀ out, getWhoisData (some out) = some (parseWhoisData out)) ∧
    (∀ out, (parseWhoisData out).all (fun kv => !(kv.2 == "")) = true) ∧
    parseWhoisData
        "Domain Name: EXAMPLE.COM\nRegistrar: Example, Inc:Ltd\njust a comment line\nEmpty:   \n:nokey here" =
      [("domain name", "EXAMPLE.COM"), ("registrar", "Example, Inc:Ltd")] := by
  refine ⟨rfl, fun out => rfl, fun out => whoisFold_all _ [] rfl, by decide⟩

/-! ## Concrete environments used by counterexamples and witnesses -/

/-- A concrete successful web-fingerprint outcome. -/
def sampleWeb : WebInfo :=
  { headers := [("server", "nginx/1.2")]
    statusCode := 200
    technologies := [⟨"Nginx", some "1.2", "web_server"⟩]
    certificates := none }

/-- A concrete all-probes-fulfilled settlement. -/
def sampleProbes : ProbeOutcomes :=
  { subdomains := some ["www.example.com"]
    openPorts := some [80, 443]
    dnsRecords := some [("A", "93.184.216.34")]
    webInfo := some sampleWeb
    whois := some (some [("domain name", "EXAMPLE.COM")]) }

/-- A concrete structured vulnerability-analysis result. -/
def sampleAnalysis : VulnAnalysis :=
  { riskScore := 7
    riskLevel := "high"
    summary := "s"
    recommendations := ["r"]
    vulnerabilities :=
      [{ severity := "high", type := "SQL Injection", description := "d",
         cvss := "9.8", remediation := "fix" }] }

/-- The scan row created by the boundary for the concrete runs. -/
def sampleScan : ScanRow := createScan 1 "example.com" "network"

/-- A fully successful environment (technique-mapping provider failing, so
the deterministic fallback is exercised). -/
def sampleEnvOk : ScanEnv :=
  { probes := sampleProbes, ai := some sampleAnalysis, mitre := fun _ => none }

/-- The same environment with the vulnerability-inference call failing. -/
def sampleEnvAiFail : ScanEnv :=
  { probes := sampleProbes, ai := none, mitre := fun _ => none }

/-- C3 (counterexample): in a concrete fully successful run the sequencer
emits one ProgressEvent per stage with the checkpoint values 0–100, yet the
only `updateScan` calls carrying a progress field are the initial 0 and the
final 100 — the stage with checkpoint 65 (and likewise 25, 50, 80, 90) never
updates the stored ScanRecord, so the emitted progress does not match the
stored record's progress for those stages. -/
theorem C3_checkpoint_counterexample :
    ((performScan sampleScan sampleEnvOk).events.filterMap (·.progress)) =
      [0, 25, 50, 65, 80, 90, 100] ∧
    ((performScan sampleScan sampleEnvOk).updates.filterMap (·.progress)) = [0, 100] ∧
    65 ∉ ((performScan sampleScan sampleEnvOk).updates.filterMap (·.progress)) := by
  refine ⟨by decide, by decide, by decide⟩

/-- C3 (amended): after each stage the sequencer persists that stage's
derived records and emits exactly one ProgressEvent carrying the stage's
checkpoint progress (0, 25, 50, 65, 80, 90, 100), but it updates the stored
ScanRecord only twice — status running with progress 0 at scan start and
status completed with progress 100 at finalization; the intermediate
checkpoints are broadcast only and never persisted. -/
theorem C3_stage_persistence_amended (scan0 : ScanRow) (env : ScanEnv)
    (a : VulnAnalysis) (hv : validateTarget scan0.target = true)
    (ha : env.ai = some a) :
    ((performScan scan0 env).events.filterMap (·.progress)) =
      [0, 25, 50, 65, 80, 90, 100] ∧
    (performScan scan0 env).events.length = 7 ∧
    ((performScan scan0 env).storedSubdomains.map (·.subdomain)) =
      env.probes.subdomains.getD [] ∧
    ((performScan scan0 env).storedTechnologies.map fun t => (t.name, t.category)) =
      (((match env.probes.webInfo with
         | some w => w.technologies
         | none => []) : List TechFind).map fun t => (t.name, t.category)) ∧
    ((performScan scan0 env).storedVulns.map fun v => (v.severity, v.type)) =
      (a.vulnerabilities.map fun v => (v.severity, v.type)) ∧
    (∀ m ∈ (performScan scan0 env).storedMappings,
      ∃ v ∈ (performScan scan0 env).storedVulns, m.vulnerabilityId = v.id) ∧
    (performScan scan0 env).updates.filterMap (·.progress) = [0, 100] ∧
    (performScan scan0 env).updates.filterMap (·.status) =
      [ScanStatus.running, ScanStatus.completed] ∧
    (performScan scan0 env).finalScan.status = ScanStatus.completed ∧
    (performScan scan0 env).finalScan.progress = 100 := by
  have hrec : performReconnaissance scan0.target env.probes =
      .ok (assembleAggregate scan0.target env.probes) := by
    simp [performReconnaissance, hv]
  unfold performScan
  rw [hrec, ha]
  simp only [analyzeVulnerabilities]
  refine ⟨rfl, rfl, ?_, ?_, ?_, ?_, rfl, rfl, rfl, rfl⟩
  · simp [assembleAggregate, List.map_map, Function.comp_def]
  · cases hw : env.probes.webInfo <;>
      simp [hw, assembleAggregate, List.map_map, Function.comp_def]
  · rw [List.map_map]
    have h : ((fun v : VulnRow => (v.severity, v.type)) ∘
        fun p : Nat × VulnReport => mkVulnRow scan0.id p.1 p.2) =
        (fun v : VulnReport => (v.severity, v.type)) ∘ Prod.snd := rfl
    rw [h, ← List.map_map, List.enum_map_snd]
  · intro m hm
    simp only [List.mem_flatten, List.mem_map] at hm
    obtain ⟨l, ⟨p, hp, hl⟩, hml⟩ := hm
    subst hl
    simp only [List.mem_map] at hml
    obtain ⟨mm, _, hmm⟩ := hml
    refine ⟨p.2, ?_, by rw [← hmm]⟩
    exact List.snd_mem_of_mem_enum hp

/-- C3 (witness): the amended behaviour in the concrete successful run. -/
theorem C3_stage_persistence_witness :
    ((performScan sampleScan sampleEnvOk).events.filterMap (·.progress)) =
      [0, 25, 50, 65, 80, 90, 100] ∧
    (performScan sampleScan sampleEnvOk).events.length = 7 ∧
    ((performScan sampleScan sampleEnvOk).storedSubdomains.map (·.subdomain)) =
      sampleEnvOk.probes.subdomains.getD [] ∧
    ((performScan sampleScan sampleEnvOk).storedTechnologies.map fun t => (t.name, t.category)) =
      (((match sampleEnvOk.probes.webInfo with
         | some w => w.technologies
         | none => []) : List TechFind).map fun t => (t.name, t.category)) ∧
    ((performScan sampleScan sampleEnvOk).storedVulns.map fun v => (v.severity, v.type)) =
      (sampleAnalysis.vulnerabilities.map fun v => (v.severity, v.type)) ∧
    (∀ m ∈ (performScan sampleScan sampleEnvOk).storedMappings,
      ∃ v ∈ (performScan sampleScan sampleEnvOk).storedVulns, m.vulnerabilityId = v.id) ∧
    (performScan sampleScan sampleEnvOk).updates.filterMap (·.progress) = [0, 100] ∧
    (performScan sampleScan sampleEnvOk).updates.filterMap (·.status) =
      [ScanStatus.running, ScanStatus.completed] ∧
    (performScan sampleScan sampleEnvOk).finalScan.status = ScanStatus.completed ∧
    (performScan sampleScan sampleEnvOk).finalScan.progress = 100 :=
  C3_stage_persistence_amended sampleScan sampleEnvOk sampleAnalysis (by decide) rfl

/-- C4 (counterexample): in a concrete run whose vulnerability-inference call
fails, the last checkpoint successfully broadcast was 80, yet the stored
record's progress after the failure transition is 0 — the stored progress is
not "the last successful checkpoint value", because intermediate checkpoints
were never persisted in the first place. -/
theorem C4_progress_counterexample :
    ((performScan sampleScan sampleEnvAiFail).events.filterMap (·.progress)).getLast? =
      some 80 ∧
    (performScan sampleScan sampleEnvAiFail).finalScan.progress = 0 ∧
    (performScan sampleScan sampleEnvAiFail).finalScan.status = ScanStatus.failed := by
  refine ⟨by decide, by decide, by decide⟩

/-- C4 (amended): when the vulnerability-inference call fails or returns
unparseable content, the scan transitions directly to failed with a
completion timestamp stamped, exactly one failed ProgressEvent is emitted —
its message is "Scan failed: " prefixed to the stage error's message — and
the scan is not retried (the event trace ends there); the failure update
carries no progress field, so the stored progress is left at 0, the value
persisted when the scan entered running, not at the last broadcast
checkpoint. -/
theorem C4_ai_failure_amended (scan0 : ScanRow) (env : ScanEnv)
    (hv : validateTarget scan0.target = true) (hai : env.ai = none) :
    (performScan scan0 env).finalScan.status = ScanStatus.failed ∧
    (performScan scan0 env).finalScan.progress = 0 ∧
    (performScan scan0 env).finalScan.completedAt = true ∧
    (performScan scan0 env).updates =
      [{ status := some ScanStatus.running, progress := some 0 }, failUpdate] ∧
    failUpdate.progress = none ∧
    ((performScan scan0 env).events.filter fun e =>
      e.status == ScanStatus.failed).length = 1 ∧
    (performScan scan0 env).events.getLast? =
      some (failEvent "Failed to analyze vulnerabilities with AI") ∧
    (performScan scan0 env).events.filterMap (·.progress) = [0, 25, 50, 65, 80] := by
  have hrec : performReconnaissance scan0.target env.probes =
      .ok (assembleAggregate scan0.target env.probes) := by
    simp [performReconnaissance, hv]
  unfold performScan
  rw [hrec, hai]
  simp only [analyzeVulnerabilities]
  refine ⟨?_, ?_, ?_, ?_, ?_, ?_, ?_, ?_⟩ <;>
    first
      | rfl
      | trivial
      | simp [applyUpdate, failUpdate]

/-- C4 (witness): the amended failure behaviour in the concrete run. -/
theorem C4_ai_failure_witness :
    (performScan sampleScan sampleEnvAiFail).finalScan.status = ScanStatus.failed ∧
    (performScan sampleScan sampleEnvAiFail).finalScan.progress = 0 ∧
    (performScan sampleScan sampleEnvAiFail).finalScan.completedAt = true ∧
    (performScan sampleScan sampleEnvAiFail).updates =
      [{ status := some ScanStatus.running, progress := some 0 }, failUpdate] ∧
    failUpdate.progress = none ∧
    ((performScan sampleScan sampleEnvAiFail).events.filter fun e =>
      e.status == ScanStatus.failed).length = 1 ∧
    (performScan sampleScan sampleEnvAiFail).events.getLast? =
      some (failEvent "Failed to analyze vulnerabilities with AI") ∧
    (performScan sampleScan sampleEnvAiFail).events.filterMap (·.progress) =
      [0, 25, 50, 65, 80] :=
  C4_ai_failure_amended sampleScan sampleEnvAiFail (by decide) rfl

/-- C5: for every environment — every probe-settlement combination, every
inference outcome, every mapping-provider outcome, and any target — the
progress values of one scan's event sequence are monotonically
non-decreasing, the last event's status is completed or failed, and every
event before the last has status running (so nothing is emitted after the
terminal event). -/
theorem C5_event_sequence_shape (scan0 : ScanRow) (env : ScanEnv) :
    (performScan scan0 env).events ≠ [] ∧
    List.Chain' (· ≤ ·) ((performScan scan0 env).events.filterMap (·.progress)) ∧
    ((performScan scan0 env).events.getLast?.any fun e =>
      e.status == ScanStatus.completed || e.status == ScanStatus.failed) = true ∧
    ((performScan scan0 env).events.dropLast.all fun e =>
      e.status == ScanStatus.running) = true := by
  unfold performScan
  cases performReconnaissance scan0.target env.probes with
  | error msg =>
    dsimp only
    exact ⟨by simp, by simp [failEvent], by simp [failEvent],
      by simp [List.dropLast, failEvent]⟩
  | ok recon =>
    cases analyzeVulnerabilities env.ai with
    | error msg =>
      dsimp only
      exact ⟨by simp, by simp [failEvent], by simp [failEvent],
        by simp [List.dropLast, failEvent]⟩
    | ok a =>
      dsimp only
      exact ⟨by simp, by simp, by simp, by simp [List.dropLast]⟩

/-- The server branch yields nothing or exactly one web-server
identification. -/
lemma detectServer_shape (o : Option String) :
    detectServer o = [] ∨
      ∃ t, detectServer o = [t] ∧ t.category = "web_server" := by
  rcases o with _ | sv
  · exact Or.inl rfl
  · unfold detectServer
    dsimp only
    split_ifs <;> first | (exact Or.inl rfl) | (exact Or.inr ⟨_, rfl, rfl⟩)

/-- The x-powered-by branch yields nothing or exactly one framework
identification. -/
lemma detectFramework_shape (o : Option String) :
    detectFramework o = [] ∨
      ∃ t, detectFramework o = [t] ∧ t.category = "framework" := by
  rcases o with _ | pv
  · exact Or.inl rfl
  · unfold detectFramework
    dsimp only
    split_ifs <;> first | (exact Or.inl rfl) | (exact Or.inr ⟨_, rfl, rfl⟩)

/-- The x-generator branch yields nothing or exactly one CMS
identification. -/
lemma detectCms_shape (o : Option String) :
    detectCms o = [] ∨
      ∃ t, detectCms o = [t] ∧ t.category = "cms" := by
  rcases o with _ | gv
  · exact Or.inl rfl
  · unfold detectCms
    dsimp only
    split_ifs <;> first | (exact Or.inl rfl) | (exact Or.inr ⟨_, rfl, rfl⟩)

/-- An empty-or-singleton list has length at most one. -/
lemma len_le_one_of_shape {l : List TechFind} {c : String}
    (h : l = [] ∨ ∃ t, l = [t] ∧ t.category = c) : l.length ≤ 1 := by
  rcases h with rfl | ⟨t, rfl, _⟩ <;> simp

/-- Filtering an empty-or-singleton branch for a different category yields
nothing. -/
lemma filter_other_of_shape {l : List TechFind} {c : String}
    (h : l = [] ∨ ∃ t, l = [t] ∧ t.category = c) (c' : String) (hne : c ≠ c') :
    (l.filter fun x => x.category == c') = [] := by
  rcases h with rfl | ⟨t, rfl, hc⟩
  · rfl
  · have : (c == c') = false := by
      simpa using hne
    simp [List.filter, hc, this]

/-- C10: each of the three inspected headers yields at most one technology
identification (if/else-if chains), so a fingerprint carries at most one
web-server, at most one framework and at most one CMS identification — at
most three in total — and the signature match runs on the lower-cased header
value, as the upper-case concrete banner shows. -/
theorem C10_detect_at_most_one_per_header (h : HeaderBag) :
    (detectTechnologies h).length ≤ 3 ∧
    ((detectTechnologies h).filter fun t => t.category == "web_server").length ≤ 1 ∧
    ((detectTechnologies h).filter fun t => t.category == "framework").length ≤ 1 ∧
    ((detectTechnologies h).filter fun t => t.category == "cms").length ≤ 1 ∧
    detectTechnologies ⟨some "APACHE/2.4.57 (Debian)", none, none⟩ =
      [⟨"Apache", some "2.4.57", "web_server"⟩] := by
  have hs := detectServer_shape h.server
  have hf := detectFramework_shape h.xPoweredBy
  have hg := detectCms_shape h.xGenerator
  refine ⟨?_, ?_, ?_, ?_, by decide⟩
  · unfold detectTechnologies
    have h1 := len_le_one_of_shape hs
    have h2 := len_le_one_of_shape hf
    have h3 := len_le_one_of_shape hg
    simp only [List.length_append]
    omega
  · unfold detectTechnologies
    rw [List.filter_append, List.filter_append,
      filter_other_of_shape hf _ (by decide),
      filter_other_of_shape hg _ (by decide)]
    simpa using le_trans (List.length_filter_le _ _) (len_le_one_of_shape hs)
  · unfold detectTechnologies
    rw [List.filter_append, List.filter_append,
      filter_other_of_shape hs _ (by decide),
      filter_other_of_shape hg _ (by decide)]
    simpa using le_trans (List.length_filter_le _ _) (len_le_one_of_shape hf)
  · unfold detectTechnologies
    rw [List.filter_append, List.filter_append,
      filter_other_of_shape hs _ (by decide),
      filter_other_of_shape hf _ (by decide)]
    simpa using le_trans (List.length_filter_le _ _) (len_le_one_of_shape hg)

end ReconHound
